import Mathlib

/-!
Verification of the eth-namespace serving cache and invalidation subsystem
(reth: `crates/rpc/rpc-builder/src/eth.rs`, `crates/config/src/config.rs`)
against its natural-language specification.

Shallow embedding conventions:
* Rust `std::time::Duration` is a pair of naturals (seconds, nanoseconds).
* Machine integers (`u64`, `usize`, `u32`) are embedded as `Nat`; none of the
  operations verified here can overflow in a way the claims depend on.
* Generic Rust type parameters (`Provider`, `Pool`, ...) stay Lean type
  parameters; handles of external collaborators carry no structure.
* Side effects of handler assembly (component construction, task spawning)
  are made observable as an explicit event trace returned by the embedded
  functions.
-/

/-- Embedding of Rust `std::time::Duration`: seconds and subsecond nanoseconds. -/
structure Duration where
  secs : Nat
  nanos : Nat
  deriving DecidableEq, Repr

/-- `Duration::from_secs`. -/
def Duration.from_secs (n : Nat) : Duration := ⟨n, 0⟩

/-- Total length in nanoseconds. -/
def Duration.toNanos (d : Duration) : Nat := d.secs * 1000000000 + d.nanos

/-- Build a `Duration` from a total nanosecond count (normalised form). -/
def Duration.ofNanos (t : Nat) : Duration := ⟨t / 1000000000, t % 1000000000⟩

/-- A `Duration` is well formed when its nanosecond part is subsecond,
as Rust's `Duration` invariant guarantees. -/
def Duration.wf (d : Duration) : Prop := d.nanos < 1000000000

/-- Modelled from the spec: `EthStateCacheConfig` (crate `reth-rpc`, not under
review); the spec's recognized option is `cache.max_blocks`, the BlockCache
capacity. -/
structure EthStateCacheConfig where
  max_blocks : Nat
  deriving DecidableEq, Repr

/-- Modelled from the spec: default BlockCache capacity (exact value is
immaterial to the claims). -/
def EthStateCacheConfig.default : EthStateCacheConfig := ⟨5000⟩

/-- Modelled from the spec: `GasPriceOracleConfig` (crate `reth-rpc`, not under
review); recognized options `gas_oracle.sample_blocks` and
`gas_oracle.percentile`, the estimator sampling parameters. -/
structure GasPriceOracleConfig where
  sample_blocks : Nat
  percentile : Nat
  deriving DecidableEq, Repr

/-- Modelled from the spec: default estimator sampling parameters (exact values
are immaterial to the claims). -/
def GasPriceOracleConfig.default : GasPriceOracleConfig := ⟨20, 60⟩

/-- Modelled from the spec: `FeeHistoryCacheConfig` (crate `reth-rpc`, not
under review); recognized option `fee_history.max_block_count`, the retention
window size. -/
structure FeeHistoryCacheConfig where
  max_block_count : Nat
  deriving DecidableEq, Repr

/-- Modelled from the spec: default fee-history retention window size (exact
value is immaterial to the claims). -/
def FeeHistoryCacheConfig.default : FeeHistoryCacheConfig := ⟨1024⟩

/-- Modelled from the spec: constant imported from `reth-rpc-server-types`
(not under review); its exact value is immaterial to the claims, which only
assert which constant each default field uses. -/
def DEFAULT_MAX_BLOCKS_PER_FILTER : Nat := 100000

/-- Modelled from the spec: constant imported from `reth-rpc-server-types`
(not under review); exact value immaterial to the claims. -/
def DEFAULT_MAX_LOGS_PER_RESPONSE : Nat := 20000

/-- Modelled from the spec: constant imported from `reth-rpc` (not under
review); exact value immaterial to the claims. -/
def RPC_DEFAULT_GAS_CAP : Nat := 50000000

/-- Modelled from the spec: `default_max_tracing_requests()` from
`reth-rpc-server-types` (not under review); the external concurrency cap on
heavier derived queries. Exact value immaterial to the claims. -/
def default_max_tracing_requests : Nat := 8

/-- Source (`eth.rs` line 21): `DEFAULT_STALE_FILTER_TTL =
Duration::from_secs(5 * 60)`. -/
def DEFAULT_STALE_FILTER_TTL : Duration := Duration.from_secs (5 * 60)

/-- Modelled from the spec: `EthFilterConfig` (crate `reth-rpc`, not under
review); carries the three recognized filter options `max_blocks_per_filter`,
`max_logs_per_response` and `stale_filter_ttl`. -/
structure EthFilterConfig where
  max_blocks_per_filter : Nat
  max_logs_per_response : Nat
  stale_filter_ttl : Duration
  deriving DecidableEq, Repr

/-- Modelled from the spec: `EthFilterConfig::default()`; the default values
are immaterial to the claims because `EthConfig::filter_config` overwrites all
three fields. -/
def EthFilterConfig.default : EthFilterConfig :=
  ⟨DEFAULT_MAX_BLOCKS_PER_FILTER, DEFAULT_MAX_LOGS_PER_RESPONSE, DEFAULT_STALE_FILTER_TTL⟩

/-- Fluent setter `EthFilterConfig::max_blocks_per_filter` (renamed with a
`set_` marker because Lean does not allow a method named after a field). -/
def EthFilterConfig.set_max_blocks_per_filter (c : EthFilterConfig) (v : Nat) : EthFilterConfig :=
  { c with max_blocks_per_filter := v }

/-- Fluent setter `EthFilterConfig::max_logs_per_response`. -/
def EthFilterConfig.set_max_logs_per_response (c : EthFilterConfig) (v : Nat) : EthFilterConfig :=
  { c with max_logs_per_response := v }

/-- Fluent setter `EthFilterConfig::stale_filter_ttl`. -/
def EthFilterConfig.set_stale_filter_ttl (c : EthFilterConfig) (v : Duration) : EthFilterConfig :=
  { c with stale_filter_ttl := v }

/-- Source (`eth.rs` lines 143-164): additional config values for the eth
namespace. -/
structure EthConfig where
  cache : EthStateCacheConfig
  gas_oracle : GasPriceOracleConfig
  max_tracing_requests : Nat
  max_blocks_per_filter : Nat
  max_logs_per_response : Nat
  rpc_gas_cap : Nat
  stale_filter_ttl : Duration
  fee_history_cache : FeeHistoryCacheConfig
  deriving DecidableEq, Repr

/-- Source (`eth.rs` lines 166-174): `EthConfig::filter_config` builds the
filter configuration from the default, setting the three filter options from
the eth config. -/
def EthConfig.filter_config (c : EthConfig) : EthFilterConfig :=
  ((EthFilterConfig.default.set_max_blocks_per_filter
        c.max_blocks_per_filter).set_max_logs_per_response
      c.max_logs_per_response).set_stale_filter_ttl
    c.stale_filter_ttl

/-- Source (`eth.rs` lines 176-189): `EthConfig::default()`. -/
def EthConfig.default : EthConfig where
  cache := EthStateCacheConfig.default
  gas_oracle := GasPriceOracleConfig.default
  max_tracing_requests := default_max_tracing_requests
  max_blocks_per_filter := DEFAULT_MAX_BLOCKS_PER_FILTER
  max_logs_per_response := DEFAULT_MAX_LOGS_PER_RESPONSE
  rpc_gas_cap := RPC_DEFAULT_GAS_CAP
  stale_filter_ttl := DEFAULT_STALE_FILTER_TTL
  fee_history_cache := FeeHistoryCacheConfig.default

/-- Source (`eth.rs` lines 192-196): fluent setter `EthConfig::state_cache`. -/
def EthConfig.state_cache (c : EthConfig) (cache : EthStateCacheConfig) : EthConfig :=
  { c with cache := cache }

/-- Source (`eth.rs` lines 198-202): fluent setter `EthConfig::gpo_config`. -/
def EthConfig.gpo_config (c : EthConfig) (gas_oracle_config : GasPriceOracleConfig) : EthConfig :=
  { c with gas_oracle := gas_oracle_config }

/-- Source (`eth.rs` lines 204-208): fluent setter
`EthConfig::max_tracing_requests` (renamed with a `set_` marker because Lean
does not allow a method named after a field). -/
def EthConfig.set_max_tracing_requests (c : EthConfig) (max_requests : Nat) : EthConfig :=
  { c with max_tracing_requests := max_requests }

/-- Source (`eth.rs` lines 210-214): fluent setter
`EthConfig::max_blocks_per_filter`. -/
def EthConfig.set_max_blocks_per_filter (c : EthConfig) (max_blocks : Nat) : EthConfig :=
  { c with max_blocks_per_filter := max_blocks }

/-- Source (`eth.rs` lines 216-220): fluent setter
`EthConfig::max_logs_per_response`. -/
def EthConfig.set_max_logs_per_response (c : EthConfig) (max_logs : Nat) : EthConfig :=
  { c with max_logs_per_response := max_logs }

/-- Source (`eth.rs` lines 222-226): fluent setter `EthConfig::rpc_gas_cap`. -/
def EthConfig.set_rpc_gas_cap (c : EthConfig) (rpc_gas_cap : Nat) : EthConfig :=
  { c with rpc_gas_cap := rpc_gas_cap }

/-- Names the five spec components plus the main api handler, for the
observable construction trace of handler assembly. -/
inductive Component where
  | blockCache
  | feeHistoryWindow
  | gasPriceEstimator
  | filterRegistry
  | subscriptionHub
  deriving DecidableEq, Repr

/-- Observable effects of handler assembly: a component was constructed, or a
background task was handed to the executor (`critical = true` for
`spawn_critical`, `false` for a non-critical best-effort spawn). -/
inductive BuildEvent where
  | constructed (c : Component)
  | spawned (taskName : String) (critical : Bool)
  deriving DecidableEq, Repr

/-- Handle to the async caching layer (`EthStateCache`, crate `reth-rpc`).
The handle only records its configuration; the service internals are outside
the reviewed sources. -/
structure EthStateCache where
  config : EthStateCacheConfig
  deriving DecidableEq, Repr

/-- `EthStateCache::spawn_with(provider, config, executor, evm_config)`:
returns the cache handle for the given configuration. -/
def EthStateCache.spawn_with {Provider Tasks EvmConfig : Type}
    (_provider : Provider) (config : EthStateCacheConfig) (_executor : Tasks)
    (_evm_config : EvmConfig) : EthStateCache :=
  ⟨config⟩

/-- Polling based filter handler (`EthFilter`, crate `reth-rpc`): records the
shared handles and the filter configuration it was constructed with. -/
structure EthFilter (Provider Pool : Type) where
  provider : Provider
  pool : Pool
  cache : EthStateCache
  config : EthFilterConfig

/-- `EthFilter::new(provider, pool, cache, config, task_spawner)`; the task
spawner box carries no observable data and is dropped from the handle. -/
def EthFilter.new {Provider Pool : Type} (provider : Provider) (pool : Pool)
    (cache : EthStateCache) (config : EthFilterConfig) : EthFilter Provider Pool :=
  ⟨provider, pool, cache, config⟩

/-- Subscription handler (`EthPubSub`, crate `reth-rpc`): records the shared
handles it was constructed with. -/
structure EthPubSub (Provider Pool Events Network : Type) where
  provider : Provider
  pool : Pool
  events : Events
  network : Network

/-- `EthPubSub::with_spawner(provider, pool, events, network, task_spawner)`. -/
def EthPubSub.with_spawner {Provider Pool Events Network : Type}
    (provider : Provider) (pool : Pool) (events : Events) (network : Network) :
    EthPubSub Provider Pool Events Network :=
  ⟨provider, pool, events, network⟩

/-- Gas price oracle handle (`GasPriceOracle`, crate `reth-rpc`). -/
structure GasPriceOracle (Provider : Type) where
  provider : Provider
  config : GasPriceOracleConfig
  cache : EthStateCache

/-- `GasPriceOracle::new(provider, oracle_config, cache)`. -/
def GasPriceOracle.new {Provider : Type} (provider : Provider)
    (config : GasPriceOracleConfig) (cache : EthStateCache) : GasPriceOracle Provider :=
  ⟨provider, config, cache⟩

/-- Fee history cache handle (`FeeHistoryCache`, crate `reth-rpc`). -/
structure FeeHistoryCache where
  cache : EthStateCache
  config : FeeHistoryCacheConfig
  deriving DecidableEq, Repr

/-- `FeeHistoryCache::new(cache, config)`. -/
def FeeHistoryCache.new (cache : EthStateCache) (config : FeeHistoryCacheConfig) :
    FeeHistoryCache :=
  ⟨cache, config⟩

/-- Source (`eth.rs` lines 231-248): context for building the eth namespace
server. -/
structure EthApiBuilderCtx (Provider Pool EvmConfig Network Tasks Events : Type) where
  provider : Provider
  pool : Pool
  network : Network
  evm_config : EvmConfig
  config : EthConfig
  executor : Tasks
  events : Events
  cache : EthStateCache

/-- Source (`eth.rs` lines 268-278): `GasPriceOracleBuilder::build(ctx)`
constructs the gas price oracle from the context's provider, oracle config and
cache. The construction is recorded in the returned event trace. -/
def GasPriceOracleBuilder.build {Provider Pool EvmConfig Network Tasks Events : Type}
    (ctx : EthApiBuilderCtx Provider Pool EvmConfig Network Tasks Events) :
    GasPriceOracle Provider × List BuildEvent :=
  (GasPriceOracle.new ctx.provider ctx.config.gas_oracle ctx.cache,
    [BuildEvent.constructed Component.gasPriceEstimator])

/-- Source (`eth.rs` lines 284-309): `FeeHistoryCacheBuilder::build(ctx)`
constructs the fee history cache and hands the canonical-blocks consumer task
to the executor via `spawn_critical`. -/
def FeeHistoryCacheBuilder.build {Provider Pool EvmConfig Network Tasks Events : Type}
    (ctx : EthApiBuilderCtx Provider Pool EvmConfig Network Tasks Events) :
    FeeHistoryCache × List BuildEvent :=
  (FeeHistoryCache.new ctx.cache ctx.config.fee_history_cache,
    [BuildEvent.constructed Component.feeHistoryWindow,
      BuildEvent.spawned "cache canonical blocks for fee history task" true])

/-- Modelled from the spec: the finished `eth_` request handler produced by
the EthApi builder (the concrete builder implementation is not under review).
Per the spec's HandlerAssembly contract it embeds the FeeHistoryWindow and
the GasPriceEstimator built for the shared context. -/
structure EthApiModel (Provider : Type) where
  fee_history_cache : FeeHistoryCache
  gas_oracle : GasPriceOracle Provider

/-- Modelled from the spec: the concrete EthApi builder used by handler
assembly (not under review); it builds the FeeHistoryWindow and the
GasPriceEstimator from the shared context through the two builder helpers of
`eth.rs` and bundles them into the api handler. -/
def defaultEthApiBuilder {Provider Pool EvmConfig Network Tasks Events : Type}
    (ctx : EthApiBuilderCtx Provider Pool EvmConfig Network Tasks Events) :
    EthApiModel Provider × List BuildEvent :=
  let fh := FeeHistoryCacheBuilder.build ctx
  let gp := GasPriceOracleBuilder.build ctx
  (⟨fh.1, gp.1⟩, fh.2 ++ gp.2)

/-- Source (`eth.rs` lines 24-34): all handlers for the core eth namespace
API. -/
structure EthHandlers (Provider Pool Network Events EthApi : Type) where
  api : EthApi
  cache : EthStateCache
  filter : EthFilter Provider Pool
  pubsub : EthPubSub Provider Pool Events Network

/-- Source (`eth.rs` lines 64-75): the one-shot builder for `EthHandlers`,
holding the shared input handles and the api builder. -/
structure EthHandlersBuilder (Provider Pool Network Tasks Events EvmConfig EthApi : Type) where
  provider : Provider
  pool : Pool
  network : Network
  evm_config : EvmConfig
  config : EthConfig
  executor : Tasks
  events : Events
  eth_api_builder :
    EthApiBuilderCtx Provider Pool EvmConfig Network Tasks Events → EthApi × List BuildEvent

/-- Source (`eth.rs` lines 39-60): `EthHandlers::builder(...)` packs the
shared handles into an `EthHandlersBuilder`. -/
def EthHandlers.builder {Provider Pool Network Tasks Events EvmConfig EthApi : Type}
    (provider : Provider) (pool : Pool) (network : Network) (evm_config : EvmConfig)
    (config : EthConfig) (executor : Tasks) (events : Events)
    (eth_api_builder :
      EthApiBuilderCtx Provider Pool EvmConfig Network Tasks Events → EthApi × List BuildEvent) :
    EthHandlersBuilder Provider Pool Network Tasks Events EvmConfig EthApi :=
  ⟨provider, pool, network, evm_config, config, executor, events, eth_api_builder⟩

/-- Source (`eth.rs` lines 89-139): `EthHandlersBuilder::build`. Constructs
the cache, hands its canonical-blocks consumer to the executor via
`spawn_critical`, builds the api handler from the shared context, then the
filter handler (with `config.filter_config()`) and the pubsub handler, and
returns the finished bundle. The second result is the observable event
trace, in program order. -/
def EthHandlersBuilder.build {Provider Pool Network Tasks Events EvmConfig EthApi : Type}
    (s : EthHandlersBuilder Provider Pool Network Tasks Events EvmConfig EthApi) :
    EthHandlers Provider Pool Network Events EthApi × List BuildEvent :=
  let cache := EthStateCache.spawn_with s.provider s.config.cache s.executor s.evm_config
  let cacheEvents :=
    [BuildEvent.constructed Component.blockCache,
      BuildEvent.spawned "cache canonical blocks task" true]
  let ctx : EthApiBuilderCtx Provider Pool EvmConfig Network Tasks Events :=
    { provider := s.provider, pool := s.pool, network := s.network,
      evm_config := s.evm_config, config := s.config, executor := s.executor,
      events := s.events, cache := cache }
  let apiBuilt := s.eth_api_builder ctx
  let filter :=
    EthFilter.new ctx.provider ctx.pool ctx.cache ctx.config.filter_config
  let pubsub := EthPubSub.with_spawner ctx.provider ctx.pool ctx.events ctx.network
  ({ api := apiBuilt.1, cache := ctx.cache, filter := filter, pubsub := pubsub },
    cacheEvents ++ apiBuilt.2 ++
      [BuildEvent.constructed Component.filterRegistry,
        BuildEvent.constructed Component.subscriptionHub])

/-- Component `a` is constructed strictly before component `b` in trace `tr`. -/
def constructedBefore (tr : List BuildEvent) (a b : Component) : Prop :=
  ∃ i j, i < j ∧ tr.get? i = some (BuildEvent.constructed a) ∧
    tr.get? j = some (BuildEvent.constructed b)

/-- Pointwise update of a finite-map-as-function. -/
def updFn {K A : Type} [DecidableEq K] (f : K → A) (k : K) (v : A) : K → A :=
  fun q => if q = k then v else f q

/-- Modelled from the spec: the single-flight state of the BlockCache
(`EthStateCache` service internals, crate `reth-rpc`, not under review).
`cached` is the store of completed entries, `inflight` maps a key to the
ordered waiter list of the one outstanding provider fetch for it, and
`provider_calls` is the audit list of `StateProvider.get_block` invocations
issued so far. -/
structure SingleFlightState (K V : Type) where
  cached : K → Option V
  inflight : K → Option (List Nat)
  provider_calls : List K

/-- Immediate outcome of a `get_block` call: a cache hit served at once, or
the caller joined the (possibly fresh) in-flight fetch for the key. -/
inductive LookupOutcome (V : Type) where
  | hit (v : V)
  | pending
  deriving DecidableEq, Repr

/-- Modelled from the spec: `get_block(key)` for caller `w`. Returns the
cached entry if present; otherwise joins an existing in-flight fetch for the
key, or — only when none exists — issues a single provider fetch and opens a
fresh waiter list. -/
def SingleFlightState.get_block {K V : Type} [DecidableEq K]
    (st : SingleFlightState K V) (w : Nat) (k : K) :
    SingleFlightState K V × LookupOutcome V :=
  match st.cached k with
  | some v => (st, LookupOutcome.hit v)
  | none =>
    match st.inflight k with
    | some ws => ({ st with inflight := updFn st.inflight k (some (ws ++ [w])) },
        LookupOutcome.pending)
    | none => ({ st with
          inflight := updFn st.inflight k (some [w]),
          provider_calls := st.provider_calls ++ [k] },
        LookupOutcome.pending)

/-- Opaque provider failure (spec error taxonomy `ProviderFailure`): surfaced
verbatim, so only its identity matters. -/
structure ProviderError where
  code : Nat
  deriving DecidableEq, Repr

/-- Modelled from the spec: completion of the provider fetch for `k`. On
success the entry is inserted and the value is delivered to every waiter; on
provider failure the error is delivered to every waiter and nothing is cached.
The second result lists the deliveries `(waiter, result)` in waiter order. -/
def SingleFlightState.on_fetch_complete {K V : Type} [DecidableEq K]
    (st : SingleFlightState K V) (k : K) (res : Except ProviderError V) :
    SingleFlightState K V × List (Nat × Except ProviderError V) :=
  match st.inflight k with
  | none => (st, [])
  | some ws =>
    match res with
    | Except.ok v =>
        ({ st with
            cached := updFn st.cached k (some v),
            inflight := updFn st.inflight k none },
          ws.map fun w => (w, Except.ok v))
    | Except.error e =>
        ({ st with inflight := updFn st.inflight k none },
          ws.map fun w => (w, Except.error e))

/-- Modelled from the spec: the LRU store of the BlockCache
(`EthStateCache` service internals, crate `reth-rpc`, not under review).
Entries are kept most-recently-used first; `max_blocks` is the capacity. -/
structure BlockLru (K V : Type) where
  max_blocks : Nat
  entries : List (K × V)
  deriving DecidableEq, Repr

/-- Modelled from the spec: insertion into the LRU store. The new entry
becomes most recent (replacing any previous entry for the key); beyond
capacity the least-recently-used tail entry is dropped. -/
def BlockLru.insert {K V : Type} [DecidableEq K] (c : BlockLru K V) (k : K) (v : V) :
    BlockLru K V :=
  { c with entries :=
      ((k, v) :: c.entries.filter fun p => decide ¬(p.1 = k)).take c.max_blocks }

/-- Modelled from the spec: lookup in the LRU store; a hit refreshes the
entry's recency (moves it to the front), a miss leaves the store unchanged. -/
def BlockLru.get_block {K V : Type} [DecidableEq K] (c : BlockLru K V) (k : K) :
    Option V × BlockLru K V :=
  match c.entries.find? fun p => decide (p.1 = k) with
  | some p => (some p.2,
      { c with entries := (k, p.2) :: c.entries.filter fun q => decide ¬(q.1 = k) })
  | none => (none, c)

/-- Folds a sequence of insertions into the LRU store. -/
def BlockLru.insertAll {K V : Type} [DecidableEq K] (c : BlockLru K V)
    (ws : List (K × V)) : BlockLru K V :=
  ws.foldl (fun acc p => acc.insert p.1 p.2) c

/-- The capacity-2 scenario store of the spec: insert blocks #1, #2, #3 in
order into an empty BlockCache of capacity 2 (payload: the block number). -/
def lruScenario : BlockLru Nat Nat :=
  ((BlockLru.insertAll ⟨2, []⟩ [(1, 1), (2, 2), (3, 3)]))

/-- Per-block fee statistics (spec data model `FeeHistoryEntry`): block
number, base fee per unit gas, and the gas-used ratio in parts per million
(the float ratio is embedded as an exact rational numerator over 1e6). -/
structure FeeHistoryEntry where
  block_number : Nat
  base_fee_per_gas : Nat
  gas_used_ppm : Nat
  deriving DecidableEq, Repr

/-- Fee-history range query failures (spec error taxonomy). -/
inductive FeeHistoryError where
  | rangeNotRetained
  | rangeNotAvailable
  deriving DecidableEq, Repr

/-- Modelled from the spec: the FeeHistoryWindow (`FeeHistoryCache` service
internals, crate `reth-rpc`, not under review): a number-ordered, contiguous
window of per-block fee statistics. `oldest` is the number of the oldest
retained entry; `entries` are the entries for `oldest, oldest + 1, ...`. -/
structure FeeHistoryWindow where
  oldest : Nat
  entries : List FeeHistoryEntry
  deriving DecidableEq, Repr

/-- Well-formedness of the window: the `i`-th retained entry carries block
number `oldest + i` (entries are contiguous by number). -/
def FeeHistoryWindow.wf (w : FeeHistoryWindow) : Prop :=
  w.entries.map FeeHistoryEntry.block_number = List.range' w.oldest w.entries.length

/-- One past the newest realized block number of the window. -/
def FeeHistoryWindow.next_number (w : FeeHistoryWindow) : Nat :=
  w.oldest + w.entries.length

/-- Modelled from the spec: `append(entry)` on each canonical block — append
at the back and trim entries older than `max_block_count` from the front. -/
def FeeHistoryWindow.append (w : FeeHistoryWindow) (e : FeeHistoryEntry)
    (max_block_count : Nat) : FeeHistoryWindow :=
  let grown := w.entries ++ [e]
  let overflow := grown.length - max_block_count
  ⟨w.oldest + overflow, grown.drop overflow⟩

/-- Modelled from the spec: `range(start, count)` returns `count` contiguous
entries starting at `start`; a start before the oldest retained entry is a
`rangeNotRetained` failure, and a range reaching past the newest realized
entry ("exceeds the current head") is a `rangeNotAvailable` failure. -/
def FeeHistoryWindow.range (w : FeeHistoryWindow) (start count : Nat) :
    Except FeeHistoryError (List FeeHistoryEntry) :=
  if start < w.oldest then Except.error FeeHistoryError.rangeNotRetained
  else if w.next_number < start + count then Except.error FeeHistoryError.rangeNotAvailable
  else Except.ok ((w.entries.drop (start - w.oldest)).take count)

/-- Source (`config.rs` lines 83-101): header stage configuration. -/
structure HeadersConfig where
  downloader_max_concurrent_requests : Nat
  downloader_min_concurrent_requests : Nat
  downloader_max_buffered_responses : Nat
  downloader_request_limit : Nat
  commit_threshold : Nat
  deriving DecidableEq, Repr

/-- Source (`config.rs` lines 103-113): `HeadersConfig::default()`. -/
def HeadersConfig.default : HeadersConfig where
  commit_threshold := 10000
  downloader_request_limit := 1000
  downloader_max_concurrent_requests := 100
  downloader_min_concurrent_requests := 5
  downloader_max_buffered_responses := 100

/-- Source (`config.rs` lines 116-140): body stage configuration. -/
structure BodiesConfig where
  downloader_request_limit : Nat
  downloader_stream_batch_size : Nat
  downloader_max_buffered_blocks_size_bytes : Nat
  downloader_min_concurrent_requests : Nat
  downloader_max_concurrent_requests : Nat
  deriving DecidableEq, Repr

/-- Source (`config.rs` lines 142-152): `BodiesConfig::default()`. -/
def BodiesConfig.default : BodiesConfig where
  downloader_request_limit := 200
  downloader_stream_batch_size := 1000
  downloader_max_buffered_blocks_size_bytes := 2 * 1024 * 1024 * 1024
  downloader_min_concurrent_requests := 5
  downloader_max_concurrent_requests := 100

/-- Source (`config.rs` lines 155-166): sender recovery stage configuration. -/
structure SenderRecoveryConfig where
  commit_threshold : Nat
  deriving DecidableEq, Repr

/-- `SenderRecoveryConfig::default()`. -/
def SenderRecoveryConfig.default : SenderRecoveryConfig := ⟨5000000⟩

/-- Source (`config.rs` lines 169-184): execution stage configuration. -/
structure ExecutionConfig where
  max_blocks : Option Nat
  max_changes : Option Nat
  max_cumulative_gas : Option Nat
  max_duration : Option Duration
  deriving DecidableEq, Repr

/-- Source (`config.rs` lines 186-197): `ExecutionConfig::default()`. -/
def ExecutionConfig.default : ExecutionConfig where
  max_blocks := some 500000
  max_changes := some 5000000
  max_cumulative_gas := some (30000000 * 50000)
  max_duration := some (Duration.from_secs (10 * 60))

/-- Source (`config.rs` lines 200-208): hashing stage configuration. -/
structure HashingConfig where
  clean_threshold : Nat
  commit_threshold : Nat
  deriving DecidableEq, Repr

/-- `HashingConfig::default()`. -/
def HashingConfig.default : HashingConfig := ⟨500000, 100000⟩

/-- Source (`config.rs` lines 217-223): merkle stage configuration. -/
structure MerkleConfig where
  clean_threshold : Nat
  deriving DecidableEq, Repr

/-- `MerkleConfig::default()`. -/
def MerkleConfig.default : MerkleConfig := ⟨5000⟩

/-- Source (`config.rs` lines 232-237): transaction lookup stage configuration. -/
structure TransactionLookupConfig where
  chunk_size : Nat
  deriving DecidableEq, Repr

/-- `TransactionLookupConfig::default()`. -/
def TransactionLookupConfig.default : TransactionLookupConfig := ⟨5000000⟩

/-- Source (`config.rs` lines 246-253): common ETL configuration
(`PathBuf` embedded as `String`). -/
structure EtlConfig where
  dir : Option String
  file_size : Nat
  deriving DecidableEq, Repr

/-- Source (`config.rs` lines 272-277): default ETL file size, 500 MB. -/
def EtlConfig.default_file_size : Nat := 500 * (1024 * 1024)

/-- `EtlConfig::default()`. -/
def EtlConfig.default : EtlConfig := ⟨none, EtlConfig.default_file_size⟩

/-- Source (`config.rs` lines 280-285): history stage configuration. -/
structure IndexHistoryConfig where
  commit_threshold : Nat
  deriving DecidableEq, Repr

/-- `IndexHistoryConfig::default()`. -/
def IndexHistoryConfig.default : IndexHistoryConfig := ⟨100000⟩

/-- Source (`config.rs` lines 55-80): configuration for each pipeline stage. -/
structure StageConfig where
  headers : HeadersConfig
  bodies : BodiesConfig
  sender_recovery : SenderRecoveryConfig
  execution : ExecutionConfig
  account_hashing : HashingConfig
  storage_hashing : HashingConfig
  merkle : MerkleConfig
  transaction_lookup : TransactionLookupConfig
  index_account_history : IndexHistoryConfig
  index_storage_history : IndexHistoryConfig
  etl : EtlConfig
  deriving DecidableEq, Repr

/-- Source (`config.rs` lines 294-302): pruning configuration; `PruneModes`
is external (`reth-primitives`) and stays a type parameter. -/
structure PruneConfig (PruneModes : Type) where
  block_interval : Nat
  segments : PruneModes

/-- Source (`config.rs` lines 311-330): EVM bytecode compiler configuration
(`PathBuf` embedded as `String`). -/
structure CompilerConfig where
  end_block : Nat
  contracts_file : Option String
  out_dir : Option String
  cc : Option String
  cflags : List String
  deriving DecidableEq, Repr

/-- `CompilerConfig::default()`. -/
def CompilerConfig.default : CompilerConfig := ⟨19000000, none, none, none, []⟩

/-- Source (`config.rs` lines 14-29): configuration for the reth node.
`PeersConfig`, `SessionsConfig` and `PruneModes` are external
(`reth-network` / `reth-primitives`) and stay type parameters. -/
structure Config (PeersConfig SessionsConfig PruneModes : Type) where
  stages : StageConfig
  prune : Option (PruneConfig PruneModes)
  peers : PeersConfig
  sessions : SessionsConfig
  compiler : CompilerConfig

/-- Discovery configuration handle (`Discv4Config`, crate `reth-discv4`,
external): only the externally-set IP resolver is observable here. -/
structure Discv4Config (NatResolver : Type) where
  external_ip_resolver : Option NatResolver

/-- `Discv4Config::builder()`: starts with no external IP resolver. -/
def Discv4Config.builder {NatResolver : Type} : Discv4Config NatResolver := ⟨none⟩

/-- Builder method `external_ip_resolver` (renamed with a `with_` marker
because Lean does not allow a method named after a field). -/
def Discv4Config.with_external_ip_resolver {NatResolver : Type}
    (d : Discv4Config NatResolver) (r : Option NatResolver) : Discv4Config NatResolver :=
  { d with external_ip_resolver := r }

/-- Network configuration builder (`NetworkConfigBuilder`, crate
`reth-network`, external): records the secret key and the configs handed to
its builder methods. -/
structure NetworkConfigBuilder (SecretKey SessionsConfig PeersConfig NatResolver : Type) where
  secret_key : SecretKey
  sessions_cfg : Option SessionsConfig
  peers_cfg : Option PeersConfig
  discovery_cfg : Option (Discv4Config NatResolver)

/-- `NetworkConfigBuilder::new(secret_key)`. -/
def NetworkConfigBuilder.new {SecretKey SessionsConfig PeersConfig NatResolver : Type}
    (secret_key : SecretKey) :
    NetworkConfigBuilder SecretKey SessionsConfig PeersConfig NatResolver :=
  ⟨secret_key, none, none, none⟩

/-- Builder method `sessions_config`. -/
def NetworkConfigBuilder.sessions_config {SecretKey SessionsConfig PeersConfig NatResolver : Type}
    (b : NetworkConfigBuilder SecretKey SessionsConfig PeersConfig NatResolver)
    (s : SessionsConfig) : NetworkConfigBuilder SecretKey SessionsConfig PeersConfig NatResolver :=
  { b with sessions_cfg := some s }

/-- Builder method `peer_config`. -/
def NetworkConfigBuilder.peer_config {SecretKey SessionsConfig PeersConfig NatResolver : Type}
    (b : NetworkConfigBuilder SecretKey SessionsConfig PeersConfig NatResolver)
    (p : PeersConfig) : NetworkConfigBuilder SecretKey SessionsConfig PeersConfig NatResolver :=
  { b with peers_cfg := some p }

/-- Builder method `discovery`. -/
def NetworkConfigBuilder.discovery {SecretKey SessionsConfig PeersConfig NatResolver : Type}
    (b : NetworkConfigBuilder SecretKey SessionsConfig PeersConfig NatResolver)
    (d : Discv4Config NatResolver) :
    NetworkConfigBuilder SecretKey SessionsConfig PeersConfig NatResolver :=
  { b with discovery_cfg := some d }

/-- Source (`config.rs` lines 31-52): `Config::network_config`. The external
fallible peers-file loader `PeersConfig::with_basic_nodes_from_file` is passed
as a function argument so the theorem ranges over every loader behavior; its
failure is absorbed by `unwrap_or_else`, falling back to the configured peers
config unchanged. -/
def Config.network_config
    {PeersConfig SessionsConfig PruneModes SecretKey NatResolver LoadErr : Type}
    (c : Config PeersConfig SessionsConfig PruneModes)
    (with_basic_nodes_from_file : PeersConfig → Option String → Except LoadErr PeersConfig)
    (nat_resolution_method : NatResolver) (peers_file : Option String)
    (secret_key : SecretKey) :
    NetworkConfigBuilder SecretKey SessionsConfig PeersConfig NatResolver :=
  let peer_config :=
    match with_basic_nodes_from_file c.peers peers_file with
    | Except.ok p => p
    | Except.error _ => c.peers
  let discv4 := Discv4Config.builder.with_external_ip_resolver (some nat_resolution_method)
  (((NetworkConfigBuilder.new secret_key).sessions_config c.sessions).peer_config
      peer_config).discovery discv4

/-- The deserializer inputs relevant to the execution stage's `max_duration`
field: the human-readable string form (embedded at token level, each token a
pair of a magnitude and its unit weight in nanoseconds, e.g. `10m` is
`(10, 60000000000)`), the structural `{secs, nanos}` table form, and an
absent/null value. -/
inductive DurationValue where
  | humanStr (toks : List (Nat × Nat))
  | durTable (secs nanos : Nat)
  | null
  deriving DecidableEq, Repr

/-- Unit weight of one minute in nanoseconds (the `m` suffix). -/
def minuteNanos : Nat := 60 * 1000000000

/-- The unit chain the humantime formatter decomposes a duration into, largest
first: days, hours, minutes, seconds, milliseconds and microseconds, in
nanoseconds (the remainder is emitted as a final nanosecond token). -/
def humantimeUnits : List Nat :=
  [86400 * 1000000000, 3600 * 1000000000, minuteNanos, 1000000000, 1000000, 1000]

/-- Greedy decomposition of a total `t` along the unit chain `us`: each unit
takes its quotient and passes the remainder on; the remainder after the last
unit is emitted as a final weight-1 (nanosecond) token. -/
def decompose (t : Nat) : List Nat → List (Nat × Nat)
  | [] => [(t, 1)]
  | u :: us => (t / u, u) :: decompose (t % u) us

/-- Modelled external collaborator: the humantime formatter
(`humantime::format_duration`, third-party crate) at token level. -/
def format_duration (d : Duration) : List (Nat × Nat) :=
  decompose d.toNanos humantimeUnits

/-- Modelled external collaborator: the humantime duration grammar at token
level — the value of a token string is the weighted sum of its tokens. -/
def parse_duration_tokens (toks : List (Nat × Nat)) : Nat :=
  toks.foldr (fun p acc => p.1 * p.2 + acc) 0

/-- Modelled external collaborator: `humantime_serde::deserialize` for
`Option<Duration>` — accepts the human-readable string form (and null for
`None`) and rejects the structural table form. -/
def humantime_serde_deserialize (v : DurationValue) : Except Unit (Option Duration) :=
  match v with
  | DurationValue.humanStr toks =>
      Except.ok (some (Duration.ofNanos (parse_duration_tokens toks)))
  | DurationValue.durTable _ _ => Except.error ()
  | DurationValue.null => Except.ok none

/-- Serde's derived deserializer for `Option<Duration>` — accepts the
structural `{secs, nanos}` table form (and null for `None`) and rejects the
string form. -/
def structural_duration_deserialize (v : DurationValue) : Except Unit (Option Duration) :=
  match v with
  | DurationValue.humanStr _ => Except.error ()
  | DurationValue.durTable s n => Except.ok (some ⟨s, n⟩)
  | DurationValue.null => Except.ok none

/-- Source (`config.rs` lines 344-360): `deserialize_duration` — the untagged
`AnyDuration` enum tries the humantime deserializer first and falls back to
the structural `Duration` deserializer, so both input forms are accepted. -/
def deserialize_duration (v : DurationValue) : Except Unit (Option Duration) :=
  match humantime_serde_deserialize v with
  | Except.ok d => Except.ok d
  | Except.error _ => structural_duration_deserialize v

/-- Modelled from the spec: a filter whose elapsed time since its last poll
has reached the stale-filter TTL is eligible for removal by the reaper. -/
def reap_eligible (elapsed ttl : Duration) : Prop :=
  ttl.toNanos ≤ elapsed.toNanos

/-- `StageConfig::default()` (derived `Default` in the source). -/
def StageConfig.default : StageConfig where
  headers := HeadersConfig.default
  bodies := BodiesConfig.default
  sender_recovery := SenderRecoveryConfig.default
  execution := ExecutionConfig.default
  account_hashing := HashingConfig.default
  storage_hashing := HashingConfig.default
  merkle := MerkleConfig.default
  transaction_lookup := TransactionLookupConfig.default
  index_account_history := IndexHistoryConfig.default
  index_storage_history := IndexHistoryConfig.default
  etl := EtlConfig.default

/-! ## Helper lemmas -/

theorem range'_drop_eq (m s n : Nat) :
    (List.range' s n).drop m = List.range' (s + m) (n - m) := by
  induction m generalizing s n with
  | zero => simp
  | succ m ih =>
    cases n with
    | zero => simp [List.range']
    | succ n =>
      rw [List.range'_succ, List.drop_succ_cons, ih]
      congr 1 <;> omega

theorem range'_take_eq (m s n : Nat) :
    (List.range' s n).take m = List.range' s (min m n) := by
  induction m generalizing s n with
  | zero => simp
  | succ m ih =>
    cases n with
    | zero => simp [List.range']
    | succ n =>
      rw [List.range'_succ, List.take_succ_cons, ih]
      rw [Nat.succ_min_succ, List.range'_succ]

theorem parse_decompose (us : List Nat) : ∀ t, parse_duration_tokens (decompose t us) = t := by
  induction us with
  | nil => intro t; simp [decompose, parse_duration_tokens]
  | cons u us ih =>
    intro t
    simp only [decompose, parse_duration_tokens, List.foldr_cons] at *
    rw [ih, Nat.mul_comm]
    exact Nat.div_add_mod t u

theorem ofNanos_toNanos (d : Duration) (h : d.wf) : Duration.ofNanos d.toNanos = d := by
  obtain ⟨s, n⟩ := d
  simp only [Duration.ofNanos, Duration.toNanos, Duration.wf, Duration.mk.injEq] at *
  omega

theorem BlockLru.insert_length_le {K V : Type} [DecidableEq K] (c : BlockLru K V)
    (k : K) (v : V) : (c.insert k v).entries.length ≤ c.max_blocks := by
  simp only [BlockLru.insert, List.length_take]
  exact Nat.min_le_left _ _

theorem BlockLru.insertAll_length_le {K V : Type} [DecidableEq K] (ws : List (K × V)) :
    ∀ c : BlockLru K V, c.entries.length ≤ c.max_blocks →
      (c.insertAll ws).entries.length ≤ c.max_blocks := by
  induction ws with
  | nil => intro c h; exact h
  | cons p ws ih =>
    intro c h
    have h2 := ih (c.insert p.1 p.2) (c.insert_length_le p.1 p.2)
    simpa [BlockLru.insertAll] using h2

/-! ## Claim theorems -/

/-- C7: each fluent setter of `EthConfig` (`state_cache`, `gpo_config`,
`max_tracing_requests`, `max_blocks_per_filter`, `max_logs_per_response`,
`rpc_gas_cap`) returns a configuration equal to its input in every field
except the one it names, which equals the new value. -/
theorem ethConfig_setters_frame (c : EthConfig) (v1 : EthStateCacheConfig)
    (v2 : GasPriceOracleConfig) (v3 v4 v5 v6 : Nat) :
    c.state_cache v1 = { c with cache := v1 } ∧
    c.gpo_config v2 = { c with gas_oracle := v2 } ∧
    c.set_max_tracing_requests v3 = { c with max_tracing_requests := v3 } ∧
    c.set_max_blocks_per_filter v4 = { c with max_blocks_per_filter := v4 } ∧
    c.set_max_logs_per_response v5 = { c with max_logs_per_response := v5 } ∧
    c.set_rpc_gas_cap v6 = { c with rpc_gas_cap := v6 } :=
  ⟨rfl, rfl, rfl, rfl, rfl, rfl⟩

/-- C8: `EthConfig::default()` sets `stale_filter_ttl` to exactly 300 seconds
(5 minutes), `max_blocks_per_filter` to `DEFAULT_MAX_BLOCKS_PER_FILTER`,
`max_logs_per_response` to `DEFAULT_MAX_LOGS_PER_RESPONSE` and `rpc_gas_cap`
to `RPC_DEFAULT_GAS_CAP`; consequently a filter never polled under the
default configuration is not reap-eligible while less than five minutes have
elapsed. -/
theorem ethConfig_default_values :
    EthConfig.default.stale_filter_ttl = Duration.from_secs (5 * 60) ∧
    EthConfig.default.stale_filter_ttl = ⟨300, 0⟩ ∧
    EthConfig.default.max_blocks_per_filter = DEFAULT_MAX_BLOCKS_PER_FILTER ∧
    EthConfig.default.max_logs_per_response = DEFAULT_MAX_LOGS_PER_RESPONSE ∧
    EthConfig.default.rpc_gas_cap = RPC_DEFAULT_GAS_CAP ∧
    (∀ elapsed : Duration, elapsed.toNanos < (Duration.from_secs 300).toNanos →
      ¬ reap_eligible elapsed EthConfig.default.stale_filter_ttl) := by
  refine ⟨rfl, rfl, rfl, rfl, rfl, ?_⟩
  intro elapsed h
  simp only [reap_eligible, EthConfig.default, DEFAULT_STALE_FILTER_TTL,
    Duration.from_secs, Duration.toNanos] at *
  omega

/-- C8 witness: at 299 elapsed seconds a never-polled default-configured
filter is not yet reap-eligible. -/
theorem ethConfig_default_values_witness :
    (Duration.mk 299 0).toNanos < (Duration.from_secs 300).toNanos ∧
    ¬ reap_eligible ⟨299, 0⟩ EthConfig.default.stale_filter_ttl :=
  ⟨by decide, ethConfig_default_values.2.2.2.2.2 ⟨299, 0⟩ (by decide)⟩

/-- C3: `EthConfig::filter_config` equals `EthFilterConfig::default()` with
exactly the three recognized filter options replaced by the config's
corresponding fields; no other field of the config influences the result
(configs agreeing on those three fields produce equal filter configs); and
`EthHandlersBuilder::build` passes exactly this filter configuration to
`EthFilter::new`. -/
theorem filter_config_exact {Provider Pool Network Tasks Events EvmConfig : Type}
    (provider : Provider) (pool : Pool) (network : Network) (evm_config : EvmConfig)
    (executor : Tasks) (events : Events) (c c₁ c₂ : EthConfig)
    (h₁ : c₁.max_blocks_per_filter = c₂.max_blocks_per_filter)
    (h₂ : c₁.max_logs_per_response = c₂.max_logs_per_response)
    (h₃ : c₁.stale_filter_ttl = c₂.stale_filter_ttl) :
    c.filter_config = { EthFilterConfig.default with
      max_blocks_per_filter := c.max_blocks_per_filter,
      max_logs_per_response := c.max_logs_per_response,
      stale_filter_ttl := c.stale_filter_ttl } ∧
    c₁.filter_config = c₂.filter_config ∧
    ((EthHandlers.builder provider pool network evm_config c executor events
        defaultEthApiBuilder).build).1.filter.config = c.filter_config := by
  refine ⟨rfl, ?_, rfl⟩
  simp only [EthConfig.filter_config, EthFilterConfig.set_max_blocks_per_filter,
    EthFilterConfig.set_max_logs_per_response, EthFilterConfig.set_stale_filter_ttl,
    h₁, h₂, h₃]

/-- C3 witness: concrete instantiation at the default configuration with unit
handles. -/
theorem filter_config_exact_witness :
    EthConfig.default.max_blocks_per_filter = EthConfig.default.max_blocks_per_filter ∧
    ((EthHandlers.builder () () () () EthConfig.default () ()
        defaultEthApiBuilder).build).1.filter.config = EthConfig.default.filter_config :=
  ⟨rfl, (filter_config_exact () () () () () () EthConfig.default EthConfig.default
    EthConfig.default rfl rfl rfl).2.2⟩

/-- C1: handler assembly only ever hands background canonical-event consumer
tasks to the executor through the critical spawn: the trace of
`EthHandlersBuilder::build` contains the BlockCache canonical-blocks consumer
spawn with the critical flag, the trace of `FeeHistoryCacheBuilder::build`
contains the fee-history canonical-blocks consumer spawn with the critical
flag, and every spawn in either trace is critical — no consumer is spawned
best-effort. -/
theorem spawn_critical_everywhere {Provider Pool Network Tasks Events EvmConfig : Type}
    (provider : Provider) (pool : Pool) (network : Network) (evm_config : EvmConfig)
    (config : EthConfig) (executor : Tasks) (events : Events)
    (ctx : EthApiBuilderCtx Provider Pool EvmConfig Network Tasks Events)
    (n : String) (b : Bool) :
    BuildEvent.spawned "cache canonical blocks task" true ∈
      ((EthHandlers.builder provider pool network evm_config config executor events
          defaultEthApiBuilder).build).2 ∧
    BuildEvent.spawned "cache canonical blocks for fee history task" true ∈
      (FeeHistoryCacheBuilder.build ctx).2 ∧
    (BuildEvent.spawned n b ∈
        ((EthHandlers.builder provider pool network evm_config config executor events
            defaultEthApiBuilder).build).2 → b = true) ∧
    (BuildEvent.spawned n b ∈ (FeeHistoryCacheBuilder.build ctx).2 → b = true) := by
  have htr : ((EthHandlers.builder provider pool network evm_config config executor events
      defaultEthApiBuilder).build).2 =
      [BuildEvent.constructed Component.blockCache,
        BuildEvent.spawned "cache canonical blocks task" true,
        BuildEvent.constructed Component.feeHistoryWindow,
        BuildEvent.spawned "cache canonical blocks for fee history task" true,
        BuildEvent.constructed Component.gasPriceEstimator,
        BuildEvent.constructed Component.filterRegistry,
        BuildEvent.constructed Component.subscriptionHub] := rfl
  have hfh : (FeeHistoryCacheBuilder.build ctx).2 =
      [BuildEvent.constructed Component.feeHistoryWindow,
        BuildEvent.spawned "cache canonical blocks for fee history task" true] := rfl
  rw [htr, hfh]
  refine ⟨by simp, by simp, ?_, ?_⟩ <;>
    · intro h
      simp only [List.mem_cons, List.not_mem_nil, or_false] at h
      rcases h with h | h | h | h | h | h | h <;> simp_all

/-- C1 witness: concrete instantiation with unit handles; the critical flag of
the named fee-history consumer spawn is forced to `true`. -/
theorem spawn_critical_everywhere_witness :
    BuildEvent.spawned "cache canonical blocks task" true ∈
      ((EthHandlers.builder () () () () EthConfig.default () ()
          defaultEthApiBuilder).build).2 ∧
    (true = true) :=
  ⟨(spawn_critical_everywhere () () () () EthConfig.default () ()
      ⟨(), (), (), (), EthConfig.default, (), (), ⟨EthConfig.default.cache⟩⟩
      "cache canonical blocks for fee history task" true).1,
    (spawn_critical_everywhere () () () () EthConfig.default () ()
      ⟨(), (), (), (), EthConfig.default, (), (), ⟨EthConfig.default.cache⟩⟩
      "cache canonical blocks for fee history task" true).2.2.2 (by decide)⟩

/-- C2: for every input context, the one-shot construction
`EthHandlersBuilder::build` produces exactly the expected trace — BlockCache
constructed first, then (inside the api builder) the FeeHistoryWindow and the
GasPriceEstimator, then the FilterRegistry and the SubscriptionHub, with both
canonical-consumer tasks spawned under the executor — in dependency order
(BlockCache before every cache-dependent component), and returns a finished
bundle containing all of these components built from the shared handles. -/
theorem handler_assembly_complete {Provider Pool Network Tasks Events EvmConfig : Type}
    (provider : Provider) (pool : Pool) (network : Network) (evm_config : EvmConfig)
    (config : EthConfig) (executor : Tasks) (events : Events) :
    ((EthHandlers.builder provider pool network evm_config config executor events
        defaultEthApiBuilder).build).2 =
      [BuildEvent.constructed Component.blockCache,
        BuildEvent.spawned "cache canonical blocks task" true,
        BuildEvent.constructed Component.feeHistoryWindow,
        BuildEvent.spawned "cache canonical blocks for fee history task" true,
        BuildEvent.constructed Component.gasPriceEstimator,
        BuildEvent.constructed Component.filterRegistry,
        BuildEvent.constructed Component.subscriptionHub] ∧
    ((EthHandlers.builder provider pool network evm_config config executor events
        defaultEthApiBuilder).build).1.cache =
      EthStateCache.spawn_with provider config.cache executor evm_config ∧
    ((EthHandlers.builder provider pool network evm_config config executor events
        defaultEthApiBuilder).build).1.filter =
      EthFilter.new provider pool (EthStateCache.spawn_with provider config.cache
        executor evm_config) config.filter_config ∧
    ((EthHandlers.builder provider pool network evm_config config executor events
        defaultEthApiBuilder).build).1.pubsub =
      EthPubSub.with_spawner provider pool events network ∧
    ((EthHandlers.builder provider pool network evm_config config executor events
        defaultEthApiBuilder).build).1.api.fee_history_cache =
      FeeHistoryCache.new (EthStateCache.spawn_with provider config.cache executor
        evm_config) config.fee_history_cache ∧
    ((EthHandlers.builder provider pool network evm_config config executor events
        defaultEthApiBuilder).build).1.api.gas_oracle =
      GasPriceOracle.new provider config.gas_oracle (EthStateCache.spawn_with provider
        config.cache executor evm_config) ∧
    constructedBefore ((EthHandlers.builder provider pool network evm_config config
        executor events defaultEthApiBuilder).build).2
      Component.blockCache Component.feeHistoryWindow ∧
    constructedBefore ((EthHandlers.builder provider pool network evm_config config
        executor events defaultEthApiBuilder).build).2
      Component.blockCache Component.gasPriceEstimator ∧
    constructedBefore ((EthHandlers.builder provider pool network evm_config config
        executor events defaultEthApiBuilder).build).2
      Component.blockCache Component.filterRegistry ∧
    constructedBefore ((EthHandlers.builder provider pool network evm_config config
        executor events defaultEthApiBuilder).build).2
      Component.blockCache Component.subscriptionHub := by
  refine ⟨rfl, rfl, rfl, rfl, rfl, rfl, ⟨0, 2, by omega, rfl, rfl⟩,
    ⟨0, 4, by omega, rfl, rfl⟩, ⟨0, 5, by omega, rfl, rfl⟩, ⟨0, 6, by omega, rfl, rfl⟩⟩

/-- C4: for an uncached key with no fetch in flight, two concurrent
`get_block` calls for that key issue exactly one `StateProvider.get_block`
invocation (both callers go pending on the same in-flight entry); completion
of that single fetch shares a successful result with both waiters and inserts
it, while a provider failure is propagated to both waiters and nothing is
cached. -/
theorem single_flight_get_block {K V : Type} [DecidableEq K]
    (st : SingleFlightState K V) (w₁ w₂ : Nat) (k : K) (v : V) (e : ProviderError)
    (h₁ : st.cached k = none) (h₂ : st.inflight k = none) :
    (st.get_block w₁ k).2 = LookupOutcome.pending ∧
    ((st.get_block w₁ k).1.get_block w₂ k).2 = LookupOutcome.pending ∧
    ((st.get_block w₁ k).1.get_block w₂ k).1.provider_calls = st.provider_calls ++ [k] ∧
    ((st.get_block w₁ k).1.get_block w₂ k).1.inflight k = some [w₁, w₂] ∧
    ((((st.get_block w₁ k).1.get_block w₂ k).1.on_fetch_complete k (Except.ok v)).2 =
      [(w₁, Except.ok v), (w₂, Except.ok v)]) ∧
    ((((st.get_block w₁ k).1.get_block w₂ k).1.on_fetch_complete k
      (Except.ok v)).1.cached k = some v) ∧
    ((((st.get_block w₁ k).1.get_block w₂ k).1.on_fetch_complete k (Except.error e)).2 =
      [(w₁, Except.error e), (w₂, Except.error e)]) ∧
    ((((st.get_block w₁ k).1.get_block w₂ k).1.on_fetch_complete k
      (Except.error e)).1.cached k = none) := by
  refine ⟨?_, ?_, ?_, ?_, ?_, ?_, ?_, ?_⟩ <;>
    simp [SingleFlightState.get_block, SingleFlightState.on_fetch_complete, updFn, h₁, h₂]

/-- C4 witness: concrete two-caller run over `Nat` keys starting from the
empty state; the failure completion delivers the error to both waiters and
leaves the key uncached. -/
theorem single_flight_get_block_witness :
    ((((⟨fun _ => none, fun _ => none, []⟩ :
        SingleFlightState Nat Nat).get_block 1 5).1.get_block 2 5).1.provider_calls = [5]) ∧
    (((((⟨fun _ => none, fun _ => none, []⟩ :
        SingleFlightState Nat Nat).get_block 1 5).1.get_block 2 5).1.on_fetch_complete 5
        (Except.error ⟨7⟩)).2 = [(1, Except.error ⟨7⟩), (2, Except.error ⟨7⟩)]) ∧
    (((((⟨fun _ => none, fun _ => none, []⟩ :
        SingleFlightState Nat Nat).get_block 1 5).1.get_block 2 5).1.on_fetch_complete 5
        (Except.error ⟨7⟩)).1.cached 5 = none) :=
  have h := single_flight_get_block
    (⟨fun _ => none, fun _ => none, []⟩ : SingleFlightState Nat Nat) 1 2 5 9 ⟨7⟩ rfl rfl
  ⟨h.2.2.1, h.2.2.2.2.2.2.1, h.2.2.2.2.2.2.2⟩

/-- C5: starting from any store within capacity, every sequence of insertions
leaves the BlockCache holding at most `max_blocks` entries; an insertion of a
fresh key into a full store evicts exactly the least-recently-used (tail)
entry; and in the capacity-2 scenario — blocks #1, #2, #3 inserted in order —
`get_block(#1)` is a miss while `get_block(#2)` and `get_block(#3)` are hits. -/
theorem block_lru_capacity {K V : Type} [DecidableEq K] (c : BlockLru K V)
    (ws : List (K × V)) (k : K) (v : V) :
    (c.entries.length ≤ c.max_blocks →
      (c.insertAll ws).entries.length ≤ c.max_blocks) ∧
    (c.entries.length = c.max_blocks → 0 < c.max_blocks →
      (∀ p ∈ c.entries, p.1 ≠ k) →
      (c.insert k v).entries = (k, v) :: c.entries.dropLast) ∧
    (lruScenario.get_block 1).1 = none ∧
    (lruScenario.get_block 2).1 = some 2 ∧
    (lruScenario.get_block 3).1 = some 3 := by
  refine ⟨BlockLru.insertAll_length_le ws c, ?_, by decide, by decide, by decide⟩
  intro hfull hpos hfresh
  have hfilter : c.entries.filter (fun p => decide ¬(p.1 = k)) = c.entries :=
    List.filter_eq_self.mpr fun p hp => by
      simpa using hfresh p hp
  obtain ⟨m, hm⟩ : ∃ m, c.max_blocks = m + 1 := ⟨c.max_blocks - 1, by omega⟩
  simp only [BlockLru.insert, hfilter, hm, List.take_succ_cons]
  rw [List.dropLast_eq_take, show c.entries.length - 1 = m from by omega]

/-- C5 witness: a full capacity-2 store with keys 7 and 8; inserting key 10
keeps the store at two entries and evicts the tail entry, and a further
insertion sequence stays within capacity. -/
theorem block_lru_capacity_witness :
    ((⟨2, [(7, 1), (8, 2)]⟩ : BlockLru Nat Nat).insertAll [(9, 3), (10, 4)]).entries.length ≤ 2 ∧
    ((⟨2, [(7, 1), (8, 2)]⟩ : BlockLru Nat Nat).insert 10 4).entries =
      (10, 4) :: [(7, 1), (8, 2)].dropLast :=
  have h := block_lru_capacity (⟨2, [(7, 1), (8, 2)]⟩ : BlockLru Nat Nat)
    [(9, 3), (10, 4)] 10 4
  ⟨h.1 (by decide), h.2.1 (by decide) (by decide) (by decide)⟩

/-- C6: `FeeHistoryWindow.range(start, count)` on a well-formed window is a
trichotomy: a start before the oldest retained entry fails with
`rangeNotRetained`; a retained start whose range reaches past the newest
realized entry fails with `rangeNotAvailable`; and a range lying within the
retained-and-realized window returns exactly `count` entries whose block
numbers are the contiguous run `start, start + 1, ...` — never a partial or
gapped result. -/
theorem fee_history_range_trichotomy (w : FeeHistoryWindow) (start count : Nat)
    (hwf : w.wf) :
    (start < w.oldest →
      w.range start count = Except.error FeeHistoryError.rangeNotRetained) ∧
    (w.oldest ≤ start → w.next_number < start + count →
      w.range start count = Except.error FeeHistoryError.rangeNotAvailable) ∧
    (w.oldest ≤ start → start + count ≤ w.next_number →
      w.range start count =
        Except.ok ((w.entries.drop (start - w.oldest)).take count) ∧
      ((w.entries.drop (start - w.oldest)).take count).length = count ∧
      ((w.entries.drop (start - w.oldest)).take count).map
          FeeHistoryEntry.block_number = List.range' start count) := by
  refine ⟨?_, ?_, ?_⟩
  · intro h
    simp [FeeHistoryWindow.range, h]
  · intro h1 h2
    have hn : ¬ start < w.oldest := by omega
    simp [FeeHistoryWindow.range, hn, h2]
  · intro h1 h2
    have hn : ¬ start < w.oldest := by omega
    have hn2 : ¬ (w.next_number < start + count) := by omega
    have hlen : w.oldest + w.entries.length = w.next_number := rfl
    refine ⟨by simp [FeeHistoryWindow.range, hn, hn2], ?_, ?_⟩
    · simp only [List.length_take, List.length_drop]
      omega
    · rw [List.map_take, List.map_drop, hwf, range'_drop_eq, range'_take_eq]
      have hs : w.oldest + (start - w.oldest) = start := by omega
      have hc : min count (w.entries.length - (start - w.oldest)) = count := by omega
      rw [hs, hc]

/-- C6 witness: window retaining blocks 5..9; a query starting at 4 is not
retained, a query for [8, 13) is not yet available, and the query for [6, 9)
returns exactly the three contiguous entries 6, 7, 8. -/
theorem fee_history_range_trichotomy_witness :
    (FeeHistoryWindow.mk 5 [⟨5, 50, 10⟩, ⟨6, 60, 20⟩, ⟨7, 70, 30⟩, ⟨8, 80, 40⟩,
        ⟨9, 90, 50⟩]).range 4 2 = Except.error FeeHistoryError.rangeNotRetained ∧
    (FeeHistoryWindow.mk 5 [⟨5, 50, 10⟩, ⟨6, 60, 20⟩, ⟨7, 70, 30⟩, ⟨8, 80, 40⟩,
        ⟨9, 90, 50⟩]).range 8 5 = Except.error FeeHistoryError.rangeNotAvailable ∧
    (FeeHistoryWindow.mk 5 [⟨5, 50, 10⟩, ⟨6, 60, 20⟩, ⟨7, 70, 30⟩, ⟨8, 80, 40⟩,
        ⟨9, 90, 50⟩]).range 6 3 =
      Except.ok [⟨6, 60, 20⟩, ⟨7, 70, 30⟩, ⟨8, 80, 40⟩] :=
  have h₁ := fee_history_range_trichotomy
    (FeeHistoryWindow.mk 5 [⟨5, 50, 10⟩, ⟨6, 60, 20⟩, ⟨7, 70, 30⟩, ⟨8, 80, 40⟩,
      ⟨9, 90, 50⟩]) 4 2 (by rfl)
  have h₂ := fee_history_range_trichotomy
    (FeeHistoryWindow.mk 5 [⟨5, 50, 10⟩, ⟨6, 60, 20⟩, ⟨7, 70, 30⟩, ⟨8, 80, 40⟩,
      ⟨9, 90, 50⟩]) 8 5 (by rfl)
  have h₃ := fee_history_range_trichotomy
    (FeeHistoryWindow.mk 5 [⟨5, 50, 10⟩, ⟨6, 60, 20⟩, ⟨7, 70, 30⟩, ⟨8, 80, 40⟩,
      ⟨9, 90, 50⟩]) 6 3 (by rfl)
  ⟨h₁.1 (by decide), h₂.2.1 (by decide) (by decide),
    (h₃.2.2 (by decide) (by decide)).1⟩

/-- C9: `Config::network_config` never fails on account of the peers file:
for every behavior of the external peers-file loader it returns a network
config builder, whose peer config is the loader's result on success and — on
any loader failure (unreadable or invalid file) — silently falls back to the
configured peers config unchanged; the sessions config, secret key and
discovery setup are installed regardless. -/
theorem network_config_peers_fallback
    {PeersConfig SessionsConfig PruneModes SecretKey NatResolver LoadErr : Type}
    (c : Config PeersConfig SessionsConfig PruneModes)
    (loader : PeersConfig → Option String → Except LoadErr PeersConfig)
    (nat_resolution_method : NatResolver) (peers_file : Option String)
    (secret_key : SecretKey) :
    (Config.network_config c loader nat_resolution_method peers_file
        secret_key).peers_cfg =
      some (match loader c.peers peers_file with
        | Except.ok p => p
        | Except.error _ => c.peers) ∧
    (∀ e : LoadErr, loader c.peers peers_file = Except.error e →
      (Config.network_config c loader nat_resolution_method peers_file
          secret_key).peers_cfg = some c.peers) ∧
    (Config.network_config c loader nat_resolution_method peers_file
        secret_key).sessions_cfg = some c.sessions ∧
    (Config.network_config c loader nat_resolution_method peers_file
        secret_key).secret_key = secret_key ∧
    (Config.network_config c loader nat_resolution_method peers_file
        secret_key).discovery_cfg = some ⟨some nat_resolution_method⟩ := by
  refine ⟨rfl, ?_, rfl, rfl, rfl⟩
  intro e he
  simp [Config.network_config, NetworkConfigBuilder.new, NetworkConfigBuilder.sessions_config,
    NetworkConfigBuilder.peer_config, NetworkConfigBuilder.discovery, he]

/-- C9 witness: with a loader that always fails, the builder still comes back
with the configured peers config unchanged. -/
theorem network_config_peers_fallback_witness :
    ((fun _ _ => Except.error 0 : Unit → Option String → Except Nat Unit) () none =
      Except.error 0) ∧
    (Config.network_config
        (⟨StageConfig.default, none, (), (), CompilerConfig.default⟩ :
          Config Unit Unit Unit)
        (fun _ _ => Except.error 0) 3 none 11).peers_cfg = some () :=
  ⟨rfl, (network_config_peers_fallback
    (⟨StageConfig.default, none, (), (), CompilerConfig.default⟩ : Config Unit Unit Unit)
    (fun _ _ => Except.error 0) 3 none 11).2.1 0 rfl⟩

/-- C10: `deserialize_duration` accepts both the human-readable string form
and the structural `{secs, nanos}` form of the execution stage's
`max_duration`, and for every well-formed duration the two forms deserialize
to the same `Option<Duration>` value; in particular the rendering of a
duration round-trips, and the literal token form of `10m` parses to 600
seconds. -/
theorem deserialize_duration_both_forms (d : Duration) (h : d.wf) :
    deserialize_duration (DurationValue.humanStr (format_duration d)) =
      Except.ok (some d) ∧
    deserialize_duration (DurationValue.durTable d.secs d.nanos) =
      Except.ok (some d) ∧
    deserialize_duration (DurationValue.humanStr (format_duration d)) =
      deserialize_duration (DurationValue.durTable d.secs d.nanos) ∧
    deserialize_duration (DurationValue.humanStr [(10, minuteNanos)]) =
      Except.ok (some (Duration.from_secs (10 * 60))) := by
  have hs : deserialize_duration (DurationValue.humanStr (format_duration d)) =
      Except.ok (some d) := by
    simp only [deserialize_duration, humantime_serde_deserialize, format_duration,
      parse_decompose, ofNanos_toNanos d h]
  have ht : deserialize_duration (DurationValue.durTable d.secs d.nanos) =
      Except.ok (some d) := rfl
  exact ⟨hs, ht, hs.trans ht.symm, by rfl⟩

/-- C10 witness: the ten-minute duration in both forms, as in the config
files of older and newer releases. -/
theorem deserialize_duration_both_forms_witness :
    deserialize_duration (DurationValue.humanStr
      (format_duration (Duration.from_secs 600))) =
      Except.ok (some (Duration.from_secs 600)) ∧
    deserialize_duration (DurationValue.durTable 600 0) =
      Except.ok (some (Duration.from_secs 600)) :=
  have h := deserialize_duration_both_forms (Duration.from_secs 600)
    (by simp [Duration.wf, Duration.from_secs])
  ⟨h.1, h.2.1⟩
